import Mathlib

/-!
Verification of the surface/view translation layer of the shadPS4 renderer.

This file is a shallow embedding of
src/video_core/texture_cache/image_view.cpp and
src/video_core/renderer_vulkan/liverpool_to_vk.h.  Collaborating code that is
not among the sources (the hardware descriptor field layouts, the format
resolution tables, the device interaction) is modelled from the specification
and marked as such in the doc comments.
-/

namespace ShadPS4

/-- Hardware image types referenced by image_view.cpp (AmdGpu::ImageType). -/
inductive ImageType where
  | Color1D
  | Color1DArray
  | Color2D
  | Color2DArray
  | Color2DMsaa
  | Color2DMsaaArray
  | Cube
  | Color3D
  deriving DecidableEq, Repr

/-- Hardware number formats (AmdGpu::NumberFormat); image_view.cpp tests for
Srgb and substitutes Unorm. -/
inductive NumberFormat where
  | Unorm
  | Snorm
  | Uint
  | Sint
  | Float
  | Srgb
  deriving DecidableEq, Repr

/-- Hardware data formats (AmdGpu::DataFormat); only the channel layouts the
claims exercise are named, every other layout is FormatOther. -/
inductive DataFormat where
  | Format8
  | Format16
  | Format32
  | Format8_8_8_8
  | FormatOther (n : Nat)
  deriving DecidableEq, Repr

/-- Host API formats (vk::Format); the named constructors are the formats that
appear in the sources, otherFormat stands for the remaining members of the
host enumeration. -/
inductive VkFormat where
  | eR32Sfloat
  | eD32Sfloat
  | eR16Unorm
  | eD16Unorm
  | eR8G8B8A8Unorm
  | eR8G8B8A8Srgb
  | eB8G8R8A8Unorm
  | eB8G8R8A8Srgb
  | eR32Uint
  | eR8Uint
  | eR8Unorm
  | eD32SfloatS8Uint
  | otherFormat (n : Nat)
  deriving DecidableEq, Repr

/-- Host API view dimensions (vk::ImageViewType). -/
inductive VkImageViewType where
  | e1D
  | e1DArray
  | e2D
  | e2DArray
  | e3D
  | eCube
  | eCubeArray
  deriving DecidableEq, Repr

/-- Reduction of an integer into an unsigned 32-bit value, as performed by the
C++ assignments of the subtraction based counts to u32 fields. -/
def u32ofInt (i : Int) : Nat := (i % (2 ^ 32 : Int)).toNat

/-- Embedding of PromoteFormatToDepth (liverpool_to_vk.h lines 105-116).
The UNREACHABLE() branch is represented by none. -/
def PromoteFormatToDepth (fmt : VkFormat) : Option VkFormat :=
  if fmt = VkFormat.eR32Sfloat then some VkFormat.eD32Sfloat
  else if fmt = VkFormat.eR16Unorm then some VkFormat.eD16Unorm
  else if fmt = VkFormat.eR8G8B8A8Unorm then some VkFormat.eR32Uint
  else if fmt = VkFormat.eR8G8B8A8Srgb then some VkFormat.eR32Uint
  else none

/-- Embedding of ConvertImageViewType (image_view.cpp lines 14-32).
The UNREACHABLE() default branch is represented by none. -/
def ConvertImageViewType (t : ImageType) : Option VkImageViewType :=
  match t with
  | ImageType.Color1D => some VkImageViewType.e1D
  | ImageType.Color1DArray => some VkImageViewType.e1DArray
  | ImageType.Color2D => some VkImageViewType.e2D
  | ImageType.Color2DMsaa => some VkImageViewType.e2D
  | ImageType.Cube => some VkImageViewType.eCube
  | ImageType.Color2DArray => some VkImageViewType.e2DArray
  | ImageType.Color3D => some VkImageViewType.e3D
  | ImageType.Color2DMsaaArray => none

/-- Modelled from the spec: ResolveColorFormat, an exact-match lookup from a
(data format, number format) key to a host format; the implementing table
(liverpool_to_vk.cpp) is not among the sources.  Only the representative
entries the claims exercise are included; every other key fails, which the
spec calls UnsupportedFormat. -/
def SurfaceFormat (dfmt : DataFormat) (nfmt : NumberFormat) : Option VkFormat :=
  match dfmt, nfmt with
  | DataFormat.Format32, NumberFormat.Float => some VkFormat.eR32Sfloat
  | DataFormat.Format32, NumberFormat.Uint => some VkFormat.eR32Uint
  | DataFormat.Format16, NumberFormat.Unorm => some VkFormat.eR16Unorm
  | DataFormat.Format8_8_8_8, NumberFormat.Unorm => some VkFormat.eR8G8B8A8Unorm
  | DataFormat.Format8_8_8_8, NumberFormat.Srgb => some VkFormat.eR8G8B8A8Srgb
  | DataFormat.Format8, NumberFormat.Unorm => some VkFormat.eR8Unorm
  | DataFormat.Format8, NumberFormat.Uint => some VkFormat.eR8Uint
  | _, _ => none

/-- Modelled from the spec: the swap-mode register field of a color target
(the defining header video_core/amdgpu/liverpool.h is not among the
sources). -/
inductive SwapMode where
  | NoSwap
  | SwapAlternate
  | SwapReverse
  | SwapAlternateReverse
  deriving DecidableEq, Repr

/-- Modelled from the spec: AdjustColorSwap returns the channel-reordered host
counterpart of a format when one exists for the given swap mode and is the
identity otherwise, with the identity law on NoSwap.  The implementation
(liverpool_to_vk.cpp) is not among the sources. -/
def AdjustColorBufferFormat (fmt : VkFormat) (swap : SwapMode) : VkFormat :=
  match swap, fmt with
  | SwapMode.NoSwap, f => f
  | SwapMode.SwapAlternate, VkFormat.eR8G8B8A8Unorm => VkFormat.eB8G8R8A8Unorm
  | SwapMode.SwapAlternate, VkFormat.eR8G8B8A8Srgb => VkFormat.eB8G8R8A8Srgb
  | _, f => f

/-- Modelled from the spec: hardware z-format register values (the defining
header video_core/amdgpu/liverpool.h is not among the sources); Invalid means
the depth plane is absent. -/
inductive ZFormat where
  | Invalid
  | Z16
  | Z32Float
  deriving DecidableEq, Repr

/-- Modelled from the spec: hardware stencil-format register values; Invalid
means the stencil plane is absent. -/
inductive StencilFormat where
  | Invalid
  | Stencil8
  deriving DecidableEq, Repr

/-- Modelled from the spec: ResolveDepthFormat, an exact-match lookup over the
depth table in which stencil-absent keys select depth-only formats.  The
implementing table (liverpool_to_vk.cpp) is not among the sources. -/
def DepthFormat (z : ZFormat) (s : StencilFormat) : Option VkFormat :=
  match z, s with
  | ZFormat.Z32Float, StencilFormat.Invalid => some VkFormat.eD32Sfloat
  | ZFormat.Z32Float, StencilFormat.Stencil8 => some VkFormat.eD32SfloatS8Uint
  | ZFormat.Z16, StencilFormat.Invalid => some VkFormat.eD16Unorm
  | _, _ => none

/-- The fields of the hardware image descriptor (AmdGpu::Image) that
image_view.cpp reads.  Modelled from the spec: the field layout of the
descriptor (video_core/amdgpu/resource.h) is not among the sources; per the
spec the accessors GetDataFmt, GetNumberFmt, GetType and GetBoundType return
the format, number format and image-type fields of the descriptor. -/
structure AmdGpuImage where
  dfmt : DataFormat
  nfmt : NumberFormat
  itype : ImageType
  base_level : Nat
  last_level : Nat
  base_array : Nat
  last_array : Nat
  deriving DecidableEq, Repr

/-- The fields of the shader image resource (Shader::ImageResource) that
image_view.cpp reads.  Modelled from the spec: IsStorage is the
storageRequested flag supplied by the shader-resource binding
(shader_recompiler/info.h is not among the sources). -/
structure ImageResource where
  is_depth : Bool
  is_array : Bool
  is_storage : Bool
  deriving DecidableEq, Repr

/-- The normalized view descriptor produced by the three builders
(the ImageViewInfo of image_view.h); fields that could not be produced because
a table lookup or UNREACHABLE() branch failed are none. -/
structure ImageViewInfo where
  format : Option VkFormat
  baseLevel : Nat := 0
  baseLayer : Nat := 0
  levels : Nat := 1
  layers : Nat := 1
  vtype : Option VkImageViewType
  is_storage : Bool := false
  deriving DecidableEq, Repr

/-- The number format actually passed to surface-format resolution
(image_view.cpp lines 37-40): storage bindings substitute Unorm for Srgb. -/
def effectiveNumberFormat (image : AmdGpuImage) (isStorage : Bool) : NumberFormat :=
  if isStorage = true ∧ image.nfmt = NumberFormat.Srgb then NumberFormat.Unorm
  else image.nfmt

/-- The format of a generic-image view (image_view.cpp lines 41-44):
surface-format resolution followed by depth promotion for depth-sampled
bindings. -/
def builtFormat (image : AmdGpuImage) (desc : ImageResource) : Option VkFormat :=
  let fmt0 := SurfaceFormat image.dfmt (effectiveNumberFormat image desc.is_storage)
  if desc.is_depth = true then fmt0.bind PromoteFormatToDepth else fmt0

/-- The mip-level count of a generic-image view (image_view.cpp lines 47-52):
multi-sample 2D types force one level, everything else uses the
subtraction-based count in unsigned arithmetic. -/
def builtLevels (image : AmdGpuImage) : Nat :=
  if image.itype = ImageType.Color2DMsaa ∨ image.itype = ImageType.Color2DMsaaArray then 1
  else u32ofInt ((image.last_level : Int) - (image.base_level : Int) + 1)

/-- The layer count of a generic-image view before the cube and 3D fixups
(image_view.cpp line 53), in unsigned arithmetic. -/
def rawLayers (image : AmdGpuImage) : Nat :=
  u32ofInt ((image.last_array : Int) - (image.base_array : Int) + 1)

/-- The view dimension of a generic-image view (image_view.cpp lines 54-59):
the converted image type, upgraded to CubeArray for cube types when the shader
requested an array. -/
def builtVType (image : AmdGpuImage) (desc : ImageResource) : Option VkImageViewType :=
  if ConvertImageViewType image.itype = some VkImageViewType.eCube ∧ desc.is_array = true
  then some VkImageViewType.eCubeArray
  else ConvertImageViewType image.itype

/-- The layer count of a generic-image view after the cube clamp
(image_view.cpp lines 57-63) and the 3D fixup (lines 65-68). -/
def builtLayers (image : AmdGpuImage) (desc : ImageResource) : Nat :=
  let layers0 := rawLayers image
  let layers1 :=
    if ConvertImageViewType image.itype = some VkImageViewType.eCube ∧ desc.is_array = false
    then min layers0 6 else layers0
  if builtVType image desc = some VkImageViewType.e3D ∧ 1 < layers1 then 1 else layers1

/-- Embedding of the generic-image builder, the constructor
ImageViewInfo::ImageViewInfo(const AmdGpu::Image&, const Shader::ImageResource&)
of image_view.cpp lines 34-73 (the component mapping of lines 70-72 carries no
claim and is omitted). -/
def imageViewInfoFromImage (image : AmdGpuImage) (desc : ImageResource) : ImageViewInfo :=
  { format := builtFormat image desc
    baseLevel := image.base_level
    baseLayer := image.base_array
    levels := builtLevels image
    layers := builtLayers image desc
    vtype := builtVType image desc
    is_storage := desc.is_storage }

/-- The fields of the hardware color-target descriptor
(AmdGpu::Liverpool::ColorBuffer) that image_view.cpp reads.  Modelled from
the spec: the register layout (video_core/amdgpu/liverpool.h) is not among
the sources; num_slices is the totalSlices value returned by NumSlices() and
slice_start is the view.slice_start field. -/
structure ColorBuffer where
  dfmt : DataFormat
  nfmt : NumberFormat
  comp_swap : SwapMode
  slice_start : Nat
  num_slices : Nat
  deriving DecidableEq, Repr

/-- Embedding of the color-target builder, the constructor
ImageViewInfo::ImageViewInfo(const AmdGpu::Liverpool::ColorBuffer&) of
image_view.cpp lines 75-83; the level range keeps its defaults. -/
def imageViewInfoFromColorBuffer (cb : ColorBuffer) : ImageViewInfo :=
  let base_format := SurfaceFormat cb.dfmt cb.nfmt
  let layers := u32ofInt ((cb.num_slices : Int) - (cb.slice_start : Int))
  { format := base_format.map (fun f => AdjustColorBufferFormat f cb.comp_swap)
    baseLevel := 0
    baseLayer := cb.slice_start
    levels := 1
    layers := layers
    vtype := some (if 1 < layers then VkImageViewType.e2DArray else VkImageViewType.e2D)
    is_storage := false }

/-- The fields of the hardware depth-target descriptor (DepthBuffer, DepthView
and DepthControl) that image_view.cpp reads.  Modelled from the spec: the
register layout (video_core/amdgpu/liverpool.h) is not among the sources;
num_slices is the totalSlices value returned by view.NumSlices(). -/
structure DepthTargetDesc where
  z_format : ZFormat
  stencil_format : StencilFormat
  slice_start : Nat
  num_slices : Nat
  depth_write_enable : Bool
  deriving DecidableEq, Repr

/-- Embedding of the depth-target builder, the constructor
ImageViewInfo::ImageViewInfo(DepthBuffer, DepthView, DepthControl) of
image_view.cpp lines 85-94; the level range keeps its defaults. -/
def imageViewInfoFromDepthBuffer (d : DepthTargetDesc) : ImageViewInfo :=
  let layers := u32ofInt ((d.num_slices : Int) - (d.slice_start : Int))
  { format := DepthFormat d.z_format d.stencil_format
    baseLevel := 0
    baseLayer := d.slice_start
    levels := 1
    layers := layers
    vtype := some (if 1 < layers then VkImageViewType.e2DArray else VkImageViewType.e2D)
    is_storage := d.depth_write_enable }

/-- An image aspect set (vk::ImageAspectFlags restricted to the bits the
sources use). -/
structure Aspect where
  depth : Bool
  stencil : Bool
  color : Bool
  deriving DecidableEq, Repr

/-- The aspect set holding only the depth bit. -/
def depthOnlyAspect : Aspect := { depth := true, stencil := false, color := false }

/-- The aspect set holding only the stencil bit. -/
def stencilOnlyAspect : Aspect := { depth := false, stencil := true, color := false }

/-- The physical image a view is realized against (the Image of the texture
cache).  Modelled from the spec for the parts outside the sources: aspect_mask
and pixel_format are the aspect capability and fallback pixel format of the
allocated image; resolveFormat is the device format resolution performed by
Instance::GetSupportedFormat, returning none when the device offers no
compatible format; createOk is the outcome of the device view-creation
call. -/
structure PhysicalImage where
  aspect_mask : Aspect
  pixel_format : VkFormat
  resolveFormat : VkFormat → Option VkFormat
  createOk : Bool

/-- The error taxonomy of the spec for view construction. -/
inductive ViewError where
  | UnsupportedFormat
  | InvalidDescriptor
  | UnreachableState
  deriving DecidableEq, Repr

/-- The realized host view object (the created vk::ImageView together with the
create-info fields the sources fill in). -/
structure RealizedView where
  format : VkFormat
  aspect : Aspect
  viewType : VkImageViewType
  baseMipLevel : Nat
  levelCount : Nat
  baseArrayLayer : Nat
  layerCount : Nat
  deriving DecidableEq, Repr

/-- Embedding of the format and aspect corrections of ImageView::ImageView
(image_view.cpp lines 103-116): the depth-as-color correction followed by the
symmetric stencil correction, each overriding the format with the pixel format
of the image and narrowing the aspect. -/
def adjustFormatAspect (image : PhysicalImage) (fmt0 : VkFormat) : VkFormat × Aspect :=
  let p1 :=
    if image.aspect_mask.depth = true ∧
        (fmt0 = VkFormat.eR32Sfloat ∨ fmt0 = VkFormat.eD32Sfloat ∨
          fmt0 = VkFormat.eR16Unorm ∨ fmt0 = VkFormat.eD16Unorm)
    then (image.pixel_format, depthOnlyAspect)
    else (fmt0, image.aspect_mask)
  if image.aspect_mask.stencil = true ∧
      (p1.1 = VkFormat.eR8Uint ∨ p1.1 = VkFormat.eR8Unorm)
  then (image.pixel_format, stencilOnlyAspect)
  else p1

/-- Embedding of view realization, ImageView::ImageView of image_view.cpp
lines 96-136.  The device interaction is modelled from the spec: a missing
table entry, a device with no compatible format, and a failed view-creation
call each fail with UnsupportedFormat for this view only, and the affected
draw is skipped rather than the whole frame. -/
def Realize (image : PhysicalImage) (info : ImageViewInfo) :
    Except ViewError RealizedView :=
  match info.format, info.vtype with
  | some fmt0, some vt =>
      let fa := adjustFormatAspect image fmt0
      match image.resolveFormat fa.1 with
      | none => Except.error ViewError.UnsupportedFormat
      | some devFmt =>
          if image.createOk = true then
            Except.ok
              { format := devFmt
                aspect := fa.2
                viewType := vt
                baseMipLevel := info.baseLevel
                levelCount := info.levels
                baseArrayLayer := info.baseLayer
                layerCount := info.layers }
          else Except.error ViewError.UnsupportedFormat
  | _, _ => Except.error ViewError.UnsupportedFormat

/-! Concrete descriptors used by the counterexamples and witnesses. -/

/-- A 3D image descriptor whose array range computes to zero layers. -/
def image3DZeroRange : AmdGpuImage :=
  { dfmt := DataFormat.Format8_8_8_8, nfmt := NumberFormat.Unorm
    itype := ImageType.Color3D
    base_level := 0, last_level := 0, base_array := 1, last_array := 0 }

/-- A 3D image descriptor with a five-layer array range. -/
def image3DFiveLayers : AmdGpuImage :=
  { dfmt := DataFormat.Format8_8_8_8, nfmt := NumberFormat.Unorm
    itype := ImageType.Color3D
    base_level := 0, last_level := 0, base_array := 0, last_array := 4 }

/-- A plain sampled binding: not depth, not array, not storage. -/
def plainDesc : ImageResource :=
  { is_depth := false, is_array := false, is_storage := false }

/-- A 2D image descriptor whose array range computes to zero layers. -/
def image2DZeroRange : AmdGpuImage :=
  { dfmt := DataFormat.Format8_8_8_8, nfmt := NumberFormat.Unorm
    itype := ImageType.Color2D
    base_level := 0, last_level := 0, base_array := 1, last_array := 0 }

/-- A 2D image descriptor with levels 2 to 5 and layers 0 to 3. -/
def image2DRange : AmdGpuImage :=
  { dfmt := DataFormat.Format8_8_8_8, nfmt := NumberFormat.Unorm
    itype := ImageType.Color2D
    base_level := 2, last_level := 5, base_array := 0, last_array := 3 }

/-- A multi-sample 2D image descriptor with a nontrivial level range. -/
def imageMsaaRange : AmdGpuImage :=
  { dfmt := DataFormat.Format8_8_8_8, nfmt := NumberFormat.Unorm
    itype := ImageType.Color2DMsaa
    base_level := 0, last_level := 3, base_array := 0, last_array := 0 }

/-- A multi-sample 2D-array image descriptor with a nontrivial level range. -/
def imageMsaaArrayRange : AmdGpuImage :=
  { dfmt := DataFormat.Format8_8_8_8, nfmt := NumberFormat.Unorm
    itype := ImageType.Color2DMsaaArray
    base_level := 0, last_level := 3, base_array := 0, last_array := 0 }

/-- A cube image descriptor with a twelve-layer array range. -/
def imageCubeTwelve : AmdGpuImage :=
  { dfmt := DataFormat.Format8_8_8_8, nfmt := NumberFormat.Unorm
    itype := ImageType.Cube
    base_level := 0, last_level := 0, base_array := 0, last_array := 11 }

/-- A packed 8-bit-by-4 sRGB image descriptor. -/
def imageSrgb : AmdGpuImage :=
  { dfmt := DataFormat.Format8_8_8_8, nfmt := NumberFormat.Srgb
    itype := ImageType.Color2D
    base_level := 0, last_level := 0, base_array := 0, last_array := 0 }

/-- A storage binding that also samples depth. -/
def storageDepthDesc : ImageResource :=
  { is_depth := true, is_array := false, is_storage := true }

/-- A storage binding that does not sample depth. -/
def storageDesc : ImageResource :=
  { is_depth := false, is_array := false, is_storage := true }

/-- A color-target descriptor with slices 2 to 5 of a six-slice surface. -/
def colorTargetA : ColorBuffer :=
  { dfmt := DataFormat.Format8_8_8_8, nfmt := NumberFormat.Unorm
    comp_swap := SwapMode.NoSwap, slice_start := 2, num_slices := 6 }

/-- A depth-target descriptor over two slices with depth writes off. -/
def depthTargetA : DepthTargetDesc :=
  { z_format := ZFormat.Z32Float, stencil_format := StencilFormat.Invalid
    slice_start := 0, num_slices := 2, depth_write_enable := false }

/-- A physical image with depth and stencil capability whose storage format is
the combined 32-bit depth plus 8-bit stencil format. -/
def depthStencilImage : PhysicalImage :=
  { aspect_mask := { depth := true, stencil := true, color := false }
    pixel_format := VkFormat.eD32SfloatS8Uint
    resolveFormat := fun f => some f
    createOk := true }

/-- A physical image with depth-only capability allocated with the 16-bit
depth format. -/
def depthOnlyImage : PhysicalImage :=
  { aspect_mask := { depth := true, stencil := false, color := false }
    pixel_format := VkFormat.eD16Unorm
    resolveFormat := fun f => some f
    createOk := true }

/-- A physical image whose device offers no compatible format for any
request. -/
def unsupportedImage : PhysicalImage :=
  { aspect_mask := { depth := false, stencil := false, color := true }
    pixel_format := VkFormat.eR8G8B8A8Unorm
    resolveFormat := fun _ => none
    createOk := true }

/-- A well-formed view descriptor for realization. -/
def simpleInfo : ImageViewInfo :=
  { format := some VkFormat.eR8G8B8A8Unorm
    baseLevel := 0, baseLayer := 0, levels := 1, layers := 1
    vtype := some VkImageViewType.e2D
    is_storage := false }

end ShadPS4

namespace ShadPS4

/-! Helper lemmas shared by the claim theorems. -/

/-- Shared helper: the unsigned reduction is the identity below two to the
thirty-second. -/
theorem u32ofInt_eq_toNat (i : Int) (h0 : 0 ≤ i) (h1 : i < 2 ^ 32) :
    u32ofInt i = i.toNat := by
  unfold u32ofInt
  rw [Int.emod_eq_of_lt h0 h1]

/-- Shared helper: the unsigned reduction of a positive value below two to the
thirty-second is positive. -/
theorem one_le_u32ofInt (i : Int) (h0 : 1 ≤ i) (h1 : i < 2 ^ 32) :
    1 ≤ u32ofInt i := by
  unfold u32ofInt
  rw [Int.emod_eq_of_lt (by omega) h1]
  omega

/-- Shared helper: a positive pre-fixup layer count stays positive through the
cube clamp and the 3D fixup. -/
theorem one_le_builtLayers (image : AmdGpuImage) (desc : ImageResource)
    (h : 1 ≤ rawLayers image) : 1 ≤ builtLayers image desc := by
  unfold builtLayers
  simp only []
  by_cases hc : ConvertImageViewType image.itype = some VkImageViewType.eCube ∧
      desc.is_array = false
  · rw [if_pos hc]
    split <;> omega
  · rw [if_neg hc]
    split <;> omega

/-- C1: PromoteFormatToDepth maps the 32-bit float texel format to the 32-bit
depth format, the 16-bit unsigned-normalized texel format to the 16-bit depth
format, and both packed 8-bit-by-4 formats (UNORM and sRGB) to the 32-bit
unsigned-integer format; on every other input it takes the UNREACHABLE()
branch and returns no format. -/
theorem promote_format_to_depth_spec :
    PromoteFormatToDepth VkFormat.eR32Sfloat = some VkFormat.eD32Sfloat ∧
    PromoteFormatToDepth VkFormat.eR16Unorm = some VkFormat.eD16Unorm ∧
    PromoteFormatToDepth VkFormat.eR8G8B8A8Unorm = some VkFormat.eR32Uint ∧
    PromoteFormatToDepth VkFormat.eR8G8B8A8Srgb = some VkFormat.eR32Uint ∧
    ∀ f : VkFormat, PromoteFormatToDepth f = none ↔
      (f ≠ VkFormat.eR32Sfloat ∧ f ≠ VkFormat.eR16Unorm ∧
        f ≠ VkFormat.eR8G8B8A8Unorm ∧ f ≠ VkFormat.eR8G8B8A8Srgb) := by
  refine ⟨rfl, rfl, rfl, rfl, ?_⟩
  intro f
  cases f <;> simp [PromoteFormatToDepth]

/-- C1 witness: the 8-bit unsigned-integer format is not one of the four
mapped formats, so promotion reaches the UNREACHABLE() branch on it. -/
theorem promote_format_to_depth_spec_witness :
    PromoteFormatToDepth VkFormat.eR8Uint = none :=
  (promote_format_to_depth_spec.2.2.2.2 VkFormat.eR8Uint).mpr (by decide)

/-- C2 counterexample: a 3D descriptor whose hardware array range computes to
zero layers (base 1, last 0) yields arrayLayerCount 0 in the built view, not
1: the fixup of image_view.cpp lines 65-68 only fires when the count exceeds
1. -/
theorem threeD_layers_counterexample :
    (imageViewInfoFromImage image3DZeroRange plainDesc).vtype =
      some VkImageViewType.e3D ∧
    (imageViewInfoFromImage image3DZeroRange plainDesc).layers = 0 ∧
    (imageViewInfoFromImage image3DZeroRange plainDesc).layers ≠ 1 := by
  decide

/-- C2 amended: for every generic image descriptor with view dimension 3D the
built arrayLayerCount is the minimum of the computed layer count and 1 - a
count above 1 is forced to 1, while a computed count of 0 is left at 0. -/
theorem threeD_layers_amended (image : AmdGpuImage) (desc : ImageResource)
    (h : image.itype = ImageType.Color3D) :
    (imageViewInfoFromImage image desc).layers = min (rawLayers image) 1 := by
  show builtLayers image desc = min (rawLayers image) 1
  unfold builtLayers builtVType
  rw [h]
  simp only [ConvertImageViewType, Option.some.injEq, reduceCtorEq, false_and, if_false,
    and_true, true_and, if_true]
  split <;> omega

/-- C2 amended witness: a 3D descriptor with five layers is clamped to one. -/
theorem threeD_layers_amended_witness :
    (imageViewInfoFromImage image3DFiveLayers plainDesc).layers =
      min (rawLayers image3DFiveLayers) 1 ∧
    min (rawLayers image3DFiveLayers) 1 = 1 :=
  ⟨threeD_layers_amended image3DFiveLayers plainDesc rfl, by decide⟩

/-- C3 counterexample: a plain 2D generic image whose hardware array range has
base 1 and last 0 produces arrayLayerCount 0 - no builder clamps the
subtraction-based count up to 1, so the claimed invariant fails. -/
theorem count_invariants_counterexample :
    (imageViewInfoFromImage image2DZeroRange plainDesc).layers = 0 ∧
    ¬(1 ≤ (imageViewInfoFromImage image2DZeroRange plainDesc).layers) := by
  decide

/-- C3 amended: mipLevelCount and arrayLayerCount are at least 1 for all three
builders provided the hardware ranges are well formed: base at most last for
the generic image (fields within the 32-bit register range), and sliceStart
strictly below totalSlices for the color and depth targets.  Outside that the
wrap-around count can be 0, as the counterexample shows. -/
theorem count_invariants_amended :
    (∀ (image : AmdGpuImage) (desc : ImageResource),
      image.last_level < 2 ^ 16 → image.last_array < 2 ^ 16 →
      image.base_level ≤ image.last_level → image.base_array ≤ image.last_array →
      1 ≤ (imageViewInfoFromImage image desc).levels ∧
      1 ≤ (imageViewInfoFromImage image desc).layers) ∧
    (∀ cb : ColorBuffer, cb.num_slices < 2 ^ 16 → cb.slice_start < cb.num_slices →
      1 ≤ (imageViewInfoFromColorBuffer cb).levels ∧
      1 ≤ (imageViewInfoFromColorBuffer cb).layers) ∧
    (∀ d : DepthTargetDesc, d.num_slices < 2 ^ 16 → d.slice_start < d.num_slices →
      1 ≤ (imageViewInfoFromDepthBuffer d).levels ∧
      1 ≤ (imageViewInfoFromDepthBuffer d).layers) := by
  refine ⟨?_, ?_, ?_⟩
  · intro image desc h1 h2 h3 h4
    constructor
    · show 1 ≤ builtLevels image
      unfold builtLevels
      split
      · omega
      · exact one_le_u32ofInt _ (by omega) (by omega)
    · exact one_le_builtLayers image desc (one_le_u32ofInt _ (by omega) (by omega))
  · intro cb h1 h2
    exact ⟨Nat.le.refl, one_le_u32ofInt _ (by omega) (by omega)⟩
  · intro d h1 h2
    exact ⟨Nat.le.refl, one_le_u32ofInt _ (by omega) (by omega)⟩

/-- C3 amended witness: the invariant holds at a well-formed generic image, a
well-formed color target and a well-formed depth target. -/
theorem count_invariants_amended_witness :
    (1 ≤ (imageViewInfoFromImage image2DRange plainDesc).levels ∧
      1 ≤ (imageViewInfoFromImage image2DRange plainDesc).layers) ∧
    (1 ≤ (imageViewInfoFromColorBuffer colorTargetA).levels ∧
      1 ≤ (imageViewInfoFromColorBuffer colorTargetA).layers) ∧
    (1 ≤ (imageViewInfoFromDepthBuffer depthTargetA).levels ∧
      1 ≤ (imageViewInfoFromDepthBuffer depthTargetA).layers) :=
  ⟨count_invariants_amended.1 image2DRange plainDesc (by decide) (by decide)
      (by decide) (by decide),
    count_invariants_amended.2.1 colorTargetA (by decide) (by decide),
    count_invariants_amended.2.2 depthTargetA (by decide) (by decide)⟩

/-- C6: for every cube generic image, an array-requested binding gets view
dimension CubeArray with the layer count unclamped, and a non-array binding
gets view dimension Cube with the layer count clamped to at most six. -/
theorem cube_view_clamp (image : AmdGpuImage) (desc : ImageResource)
    (h : image.itype = ImageType.Cube) :
    (desc.is_array = true →
      (imageViewInfoFromImage image desc).vtype = some VkImageViewType.eCubeArray ∧
      (imageViewInfoFromImage image desc).layers = rawLayers image) ∧
    (desc.is_array = false →
      (imageViewInfoFromImage image desc).vtype = some VkImageViewType.eCube ∧
      (imageViewInfoFromImage image desc).layers = min (rawLayers image) 6) := by
  have hcv : ConvertImageViewType image.itype = some VkImageViewType.eCube := by
    rw [h]
    rfl
  constructor
  · intro ha
    have hv : builtVType image desc = some VkImageViewType.eCubeArray := by
      unfold builtVType
      rw [if_pos ⟨hcv, ha⟩]
    have hn1 : ¬(ConvertImageViewType image.itype = some VkImageViewType.eCube ∧
        desc.is_array = false) := by
      simp [ha]
    have hn2 : ¬(builtVType image desc = some VkImageViewType.e3D ∧
        1 < rawLayers image) := by
      simp [hv]
    refine ⟨hv, ?_⟩
    show builtLayers image desc = rawLayers image
    unfold builtLayers
    simp only []
    rw [if_neg hn1, if_neg hn2]
  · intro ha
    have hn0 : ¬(ConvertImageViewType image.itype = some VkImageViewType.eCube ∧
        desc.is_array = true) := by
      simp [ha]
    have hv : builtVType image desc = some VkImageViewType.eCube := by
      unfold builtVType
      rw [if_neg hn0]
      exact hcv
    have hn2 : ¬(builtVType image desc = some VkImageViewType.e3D ∧
        1 < min (rawLayers image) 6) := by
      simp [hv]
    have hp : ConvertImageViewType image.itype = some VkImageViewType.eCube ∧
        desc.is_array = false := ⟨hcv, ha⟩
    refine ⟨hv, ?_⟩
    show builtLayers image desc = min (rawLayers image) 6
    unfold builtLayers
    simp only []
    rw [if_pos hp, if_neg hn2]

/-- C6 witness: a cube descriptor with layers 0 to 11 and no array request is
clamped to six layers with view dimension Cube. -/
theorem cube_view_clamp_witness :
    (imageViewInfoFromImage imageCubeTwelve plainDesc).vtype =
      some VkImageViewType.eCube ∧
    (imageViewInfoFromImage imageCubeTwelve plainDesc).layers =
      min (rawLayers imageCubeTwelve) 6 ∧
    min (rawLayers imageCubeTwelve) 6 = 6 :=
  ⟨((cube_view_clamp imageCubeTwelve plainDesc rfl).2 rfl).1,
    ((cube_view_clamp imageCubeTwelve plainDesc rfl).2 rfl).2, by decide⟩

/-- C7: the built mipLevelCount is the unsigned count lastLevel minus
baseLevel plus 1, except that the multi-sample 2D image types force it to 1;
for well-formed ranges the unsigned count coincides with the plain
natural-number count. -/
theorem mip_level_count_rule (image : AmdGpuImage) (desc : ImageResource) :
    ((image.itype = ImageType.Color2DMsaa ∨ image.itype = ImageType.Color2DMsaaArray) →
      (imageViewInfoFromImage image desc).levels = 1) ∧
    (¬(image.itype = ImageType.Color2DMsaa ∨ image.itype = ImageType.Color2DMsaaArray) →
      (imageViewInfoFromImage image desc).levels =
        u32ofInt ((image.last_level : Int) - (image.base_level : Int) + 1)) ∧
    (¬(image.itype = ImageType.Color2DMsaa ∨ image.itype = ImageType.Color2DMsaaArray) →
      image.base_level ≤ image.last_level → image.last_level < 2 ^ 16 →
      (imageViewInfoFromImage image desc).levels =
        image.last_level - image.base_level + 1) := by
  refine ⟨?_, ?_, ?_⟩
  · intro hm
    show builtLevels image = 1
    unfold builtLevels
    rw [if_pos hm]
  · intro hm
    show builtLevels image = _
    unfold builtLevels
    rw [if_neg hm]
  · intro hm hle hlt
    show builtLevels image = _
    unfold builtLevels
    rw [if_neg hm, u32ofInt_eq_toNat _ (by omega) (by omega)]
    omega

/-- C7 witness: a multi-sample 2D descriptor with levels 0 to 3 is forced to
one level, while a plain 2D descriptor with levels 2 to 5 gets four. -/
theorem mip_level_count_rule_witness :
    (imageViewInfoFromImage imageMsaaRange plainDesc).levels = 1 ∧
    (imageViewInfoFromImage image2DRange plainDesc).levels =
      image2DRange.last_level - image2DRange.base_level + 1 :=
  ⟨(mip_level_count_rule imageMsaaRange plainDesc).1 (Or.inl rfl),
    (mip_level_count_rule image2DRange plainDesc).2.2 (by decide) (by decide) (by decide)⟩

/-- C5 counterexample: a depth-sampled storage binding of a packed sRGB image
does substitute UNORM before resolution, but the built format is then promoted
to the 32-bit unsigned-integer format, so it is not the format resolved for
the UNORM counterpart, contrary to the claim read over every generic
descriptor. -/
theorem storage_srgb_counterexample :
    (imageViewInfoFromImage imageSrgb storageDepthDesc).format =
      some VkFormat.eR32Uint ∧
    SurfaceFormat imageSrgb.dfmt NumberFormat.Unorm =
      some VkFormat.eR8G8B8A8Unorm ∧
    (imageViewInfoFromImage imageSrgb storageDepthDesc).format ≠
      SurfaceFormat imageSrgb.dfmt NumberFormat.Unorm := by
  decide

/-- C5 amended: for storage bindings of sRGB images the number format fed to
resolution is the UNORM counterpart - non-depth-sampled bindings get exactly
the UNORM-resolved format, depth-sampled bindings get that format after depth
promotion, and the built format is never an sRGB format; non-storage bindings
pass the sRGB number format through to resolution unchanged. -/
theorem storage_srgb_amended (image : AmdGpuImage) (desc : ImageResource) :
    (desc.is_storage = true → image.nfmt = NumberFormat.Srgb →
      (desc.is_depth = false →
        (imageViewInfoFromImage image desc).format =
          SurfaceFormat image.dfmt NumberFormat.Unorm) ∧
      (desc.is_depth = true →
        (imageViewInfoFromImage image desc).format =
          (SurfaceFormat image.dfmt NumberFormat.Unorm).bind PromoteFormatToDepth) ∧
      ((imageViewInfoFromImage image desc).format ≠ some VkFormat.eR8G8B8A8Srgb ∧
        (imageViewInfoFromImage image desc).format ≠ some VkFormat.eB8G8R8A8Srgb)) ∧
    (desc.is_storage = false →
      (imageViewInfoFromImage image desc).format =
        (if desc.is_depth = true
          then (SurfaceFormat image.dfmt image.nfmt).bind PromoteFormatToDepth
          else SurfaceFormat image.dfmt image.nfmt)) := by
  constructor
  · intro hs hn
    have he : effectiveNumberFormat image desc.is_storage = NumberFormat.Unorm := by
      unfold effectiveNumberFormat
      rw [if_pos ⟨hs, hn⟩]
    have hfmt : (imageViewInfoFromImage image desc).format =
        (if desc.is_depth = true
          then (SurfaceFormat image.dfmt NumberFormat.Unorm).bind PromoteFormatToDepth
          else SurfaceFormat image.dfmt NumberFormat.Unorm) := by
      show builtFormat image desc = _
      unfold builtFormat
      rw [he]
    refine ⟨?_, ?_, ?_⟩
    · intro hd
      rw [hfmt, hd]
      simp
    · intro hd
      rw [hfmt, hd]
      simp
    · rw [hfmt]
      cases hdf : image.dfmt <;> cases hdd : desc.is_depth <;>
        simp [SurfaceFormat, PromoteFormatToDepth]
  · intro hs
    have hno : ¬(desc.is_storage = true ∧ image.nfmt = NumberFormat.Srgb) := by
      rw [hs]
      simp
    have he : effectiveNumberFormat image desc.is_storage = image.nfmt := by
      unfold effectiveNumberFormat
      rw [if_neg hno]
    show builtFormat image desc = _
    unfold builtFormat
    rw [he]

/-- C5 amended witness: a non-depth storage binding of the packed sRGB image
resolves to the packed UNORM format. -/
theorem storage_srgb_amended_witness :
    (imageViewInfoFromImage imageSrgb storageDesc).format =
      SurfaceFormat imageSrgb.dfmt NumberFormat.Unorm ∧
    SurfaceFormat imageSrgb.dfmt NumberFormat.Unorm =
      some VkFormat.eR8G8B8A8Unorm :=
  ⟨((storage_srgb_amended imageSrgb storageDesc).1 rfl rfl).1 rfl, by decide⟩

/-- C8: every color-target view uses sliceStart as base layer, the unsigned
count totalSlices minus sliceStart as layer count (for well-formed ranges the
plain difference), and dimension 2DArray when that count exceeds 1, else
2D. -/
theorem color_target_rule (cb : ColorBuffer) :
    (imageViewInfoFromColorBuffer cb).baseLayer = cb.slice_start ∧
    (imageViewInfoFromColorBuffer cb).layers =
      u32ofInt ((cb.num_slices : Int) - (cb.slice_start : Int)) ∧
    (cb.slice_start ≤ cb.num_slices → cb.num_slices < 2 ^ 16 →
      (imageViewInfoFromColorBuffer cb).layers = cb.num_slices - cb.slice_start) ∧
    (1 < (imageViewInfoFromColorBuffer cb).layers →
      (imageViewInfoFromColorBuffer cb).vtype = some VkImageViewType.e2DArray) ∧
    ((imageViewInfoFromColorBuffer cb).layers ≤ 1 →
      (imageViewInfoFromColorBuffer cb).vtype = some VkImageViewType.e2D) := by
  refine ⟨rfl, rfl, ?_, ?_, ?_⟩
  · intro h1 h2
    show u32ofInt ((cb.num_slices : Int) - (cb.slice_start : Int)) = _
    rw [u32ofInt_eq_toNat _ (by omega) (by omega)]
    omega
  · intro hgt
    have hgt2 : 1 < u32ofInt ((cb.num_slices : Int) - (cb.slice_start : Int)) := hgt
    show some (if 1 < u32ofInt ((cb.num_slices : Int) - (cb.slice_start : Int))
        then VkImageViewType.e2DArray else VkImageViewType.e2D) =
      some VkImageViewType.e2DArray
    rw [if_pos hgt2]
  · intro hle
    have hle2 : ¬(1 < u32ofInt ((cb.num_slices : Int) - (cb.slice_start : Int))) := by
      have hle3 : u32ofInt ((cb.num_slices : Int) - (cb.slice_start : Int)) ≤ 1 := hle
      omega
    show some (if 1 < u32ofInt ((cb.num_slices : Int) - (cb.slice_start : Int))
        then VkImageViewType.e2DArray else VkImageViewType.e2D) =
      some VkImageViewType.e2D
    rw [if_neg hle2]

/-- C8 witness: the color target with sliceStart 2 and totalSlices 6 yields
base layer 2, four layers and dimension 2DArray. -/
theorem color_target_rule_witness :
    (imageViewInfoFromColorBuffer colorTargetA).baseLayer = colorTargetA.slice_start ∧
    (imageViewInfoFromColorBuffer colorTargetA).layers =
      colorTargetA.num_slices - colorTargetA.slice_start ∧
    (imageViewInfoFromColorBuffer colorTargetA).vtype = some VkImageViewType.e2DArray ∧
    colorTargetA.slice_start = 2 ∧
    colorTargetA.num_slices - colorTargetA.slice_start = 4 :=
  ⟨(color_target_rule colorTargetA).1,
    (color_target_rule colorTargetA).2.2.1 (by decide) (by decide),
    (color_target_rule colorTargetA).2.2.2.1 (by decide),
    by decide, by decide⟩

/-- C9 counterexample: a depth-and-stencil capable image with a descriptor
format that is none of the four depth-alias formats does not always keep its
format and the full aspect - the 8-bit unsigned-normalized format triggers the
stencil correction, overriding format and aspect. -/
theorem depth_as_color_counterexample :
    depthStencilImage.aspect_mask.depth = true ∧
    adjustFormatAspect depthStencilImage VkFormat.eR8Unorm =
      (depthStencilImage.pixel_format, stencilOnlyAspect) ∧
    adjustFormatAspect depthStencilImage VkFormat.eR8Unorm ≠
      (VkFormat.eR8Unorm, depthStencilImage.aspect_mask) := by
  decide

/-- C9 amended: on a depth-capable image the four depth-alias formats are
overridden to the pixel format of the image with Depth-only aspect, and other
formats keep format and full aspect, in both cases provided the stencil
correction of the source does not also fire (stencil capability together with
an 8-bit unsigned-integer or unsigned-normalized current format). -/
theorem depth_as_color_amended (image : PhysicalImage) (fmt : VkFormat)
    (hd : image.aspect_mask.depth = true) :
    ((fmt = VkFormat.eR32Sfloat ∨ fmt = VkFormat.eD32Sfloat ∨
        fmt = VkFormat.eR16Unorm ∨ fmt = VkFormat.eD16Unorm) →
      ¬(image.aspect_mask.stencil = true ∧
          (image.pixel_format = VkFormat.eR8Uint ∨
            image.pixel_format = VkFormat.eR8Unorm)) →
      adjustFormatAspect image fmt = (image.pixel_format, depthOnlyAspect)) ∧
    (¬(fmt = VkFormat.eR32Sfloat ∨ fmt = VkFormat.eD32Sfloat ∨
        fmt = VkFormat.eR16Unorm ∨ fmt = VkFormat.eD16Unorm) →
      ¬(image.aspect_mask.stencil = true ∧
          (fmt = VkFormat.eR8Uint ∨ fmt = VkFormat.eR8Unorm)) →
      adjustFormatAspect image fmt = (fmt, image.aspect_mask)) := by
  constructor
  · intro h4 hns
    have hp : image.aspect_mask.depth = true ∧
        (fmt = VkFormat.eR32Sfloat ∨ fmt = VkFormat.eD32Sfloat ∨
          fmt = VkFormat.eR16Unorm ∨ fmt = VkFormat.eD16Unorm) := ⟨hd, h4⟩
    unfold adjustFormatAspect
    simp only []
    rw [if_pos hp]
    split
    · next hcon => exact absurd (by simpa using hcon) hns
    · rfl
  · intro hn4 hns
    have h1 : ¬(image.aspect_mask.depth = true ∧
        (fmt = VkFormat.eR32Sfloat ∨ fmt = VkFormat.eD32Sfloat ∨
          fmt = VkFormat.eR16Unorm ∨ fmt = VkFormat.eD16Unorm)) :=
      fun hcon => hn4 hcon.2
    unfold adjustFormatAspect
    simp only []
    rw [if_neg h1]
    split
    · next hcon => exact absurd (by simpa using hcon) hns
    · rfl

/-- C9 amended witness: a depth-only image allocated with the 16-bit depth
format, viewed through the 16-bit unsigned-normalized texel format, realizes
with the pixel format of the image and the Depth-only aspect. -/
theorem depth_as_color_amended_witness :
    adjustFormatAspect depthOnlyImage VkFormat.eR16Unorm =
      (depthOnlyImage.pixel_format, depthOnlyAspect) ∧
    depthOnlyImage.pixel_format = VkFormat.eD16Unorm :=
  ⟨(depth_as_color_amended depthOnlyImage VkFormat.eR16Unorm rfl).1
      (Or.inr (Or.inr (Or.inl rfl))) (by decide), by decide⟩

/-- C10: the image-type conversion maps exactly the six handled types, with
the multi-sample 2D type mapping to the same 2D view type as plain 2D, and
reaches the UNREACHABLE() branch precisely on the multi-sample 2D-array type -
an image type that the generic builder itself accepts when forcing the level
count to 1. -/
theorem convert_image_view_type_total :
    ConvertImageViewType ImageType.Color1D = some VkImageViewType.e1D ∧
    ConvertImageViewType ImageType.Color1DArray = some VkImageViewType.e1DArray ∧
    ConvertImageViewType ImageType.Color2D = some VkImageViewType.e2D ∧
    ConvertImageViewType ImageType.Color2DMsaa = ConvertImageViewType ImageType.Color2D ∧
    ConvertImageViewType ImageType.Cube = some VkImageViewType.eCube ∧
    ConvertImageViewType ImageType.Color2DArray = some VkImageViewType.e2DArray ∧
    ConvertImageViewType ImageType.Color3D = some VkImageViewType.e3D ∧
    (∀ t : ImageType, ConvertImageViewType t = none ↔ t = ImageType.Color2DMsaaArray) ∧
    (∀ (image : AmdGpuImage) (desc : ImageResource),
      image.itype = ImageType.Color2DMsaaArray →
      (imageViewInfoFromImage image desc).levels = 1 ∧
      (imageViewInfoFromImage image desc).vtype = none) := by
  refine ⟨rfl, rfl, rfl, rfl, rfl, rfl, rfl, ?_, ?_⟩
  · intro t
    cases t <;> simp [ConvertImageViewType]
  · intro image desc h
    constructor
    · show builtLevels image = 1
      unfold builtLevels
      rw [if_pos (Or.inr h)]
    · show builtVType image desc = none
      unfold builtVType
      have hc : ConvertImageViewType image.itype = none := by
        rw [h]
        rfl
      have hn : ¬(ConvertImageViewType image.itype = some VkImageViewType.eCube ∧
          desc.is_array = true) := by
        simp [hc]
      rw [if_neg hn, hc]

/-- C10 witness: the multi-sample 2D-array descriptor forces one level while
the view dimension computation reaches the UNREACHABLE() branch. -/
theorem convert_image_view_type_total_witness :
    (imageViewInfoFromImage imageMsaaArrayRange plainDesc).levels = 1 ∧
    (imageViewInfoFromImage imageMsaaArrayRange plainDesc).vtype = none :=
  convert_image_view_type_total.2.2.2.2.2.2.2.2 imageMsaaArrayRange plainDesc rfl

/-- C4: every outcome of view realization is either a realized view or the
per-view UnsupportedFormat failure - no outcome is an UnreachableState or any
other session-terminating condition, so a missing table entry, an
uncooperative device or a failed creation call affects only the one view. -/
theorem realize_failure_local (image : PhysicalImage) (info : ImageViewInfo) :
    ((∃ v, Realize image info = Except.ok v) ∨
      Realize image info = Except.error ViewError.UnsupportedFormat) ∧
    (∀ e, Realize image info = Except.error e → e = ViewError.UnsupportedFormat) := by
  have hshape : (∃ v, Realize image info = Except.ok v) ∨
      Realize image info = Except.error ViewError.UnsupportedFormat := by
    rcases hf : info.format with _ | fmt
    · right
      simp [Realize, hf]
    · rcases hv : info.vtype with _ | vt
      · right
        simp [Realize, hf, hv]
      · rcases hr : image.resolveFormat (adjustFormatAspect image fmt).1 with _ | devFmt
        · right
          simp [Realize, hf, hv, hr]
        · by_cases hc : image.createOk = true
          · left
            exact ⟨RealizedView.mk devFmt (adjustFormatAspect image fmt).2 vt
                info.baseLevel info.levels info.baseLayer info.layers,
              by simp [Realize, hf, hv, hr, hc]⟩
          · right
            simp [Realize, hf, hv, hr, hc]
  refine ⟨hshape, ?_⟩
  intro e he
  rcases hshape with ⟨v, hok⟩ | herr
  · rw [he] at hok
    exact Except.noConfusion hok
  · rw [he] at herr
    injection herr

/-- C4 witness: a device that offers no compatible format fails this one view
with UnsupportedFormat. -/
theorem realize_failure_local_witness :
    Realize unsupportedImage simpleInfo = Except.error ViewError.UnsupportedFormat ∧
    ViewError.UnsupportedFormat = ViewError.UnsupportedFormat :=
  ⟨rfl, (realize_failure_local unsupportedImage simpleInfo).2
      ViewError.UnsupportedFormat rfl⟩

end ShadPS4
